import Mathlib

/-!
Shallow embedding of the physics core of the two-line stunt kite simulator.
Each definition mirrors one function of the JavaScript source; the doc
comments name the file and line range it was translated from. JavaScript
numbers are modelled as real numbers (rational numbers for the purely
arithmetical stepper), and NaN is modelled explicitly where a claim is about
NaN handling.
-/

namespace KiteSim

/-! ## Stepper (src/src/physics/engine.js, lines 219-250)

The improved updatePhysics declared at line 219 shadows the earlier
declaration at line 52, so it is the one the program runs. Its accumulator
arithmetic is independent of the physics sub-step stepPhysics, which never
touches the accumulator, so the loop is modelled as a pure function from the
incoming accumulator to the pair (final accumulator, sub-steps executed).
-/

/-- Fixed physics step of the improved updatePhysics: 1/120 s (line 233). -/
def FIXED_TIME_STEP : ℚ := 1/120

/-- The bounded while loop of updatePhysics (lines 236-243): while the
accumulator holds at least one fixed step and fewer than the remaining
allowed sub-steps have run, consume one step. The fuel argument counts the
sub-steps still allowed, 10 at entry. Returns the accumulator left over and
the number of sub-steps executed. -/
def runSteps : ℕ → ℚ → ℚ × ℕ
  | 0, acc => (acc, 0)
  | fuel + 1, acc =>
    if FIXED_TIME_STEP ≤ acc then
      let r := runSteps fuel (acc - FIXED_TIME_STEP)
      (r.1, r.2 + 1)
    else (acc, 0)

/-- The improved updatePhysics (lines 219-250): ignore the tick when not
running, clamp deltaTime to 0.1 s, scale by the time scale, bank into the
accumulator, run at most 10 fixed sub-steps, and if the bound was hit while
more than one fixed step is still pending, drain the accumulator to zero.
Returns the accumulator state after the call and the sub-steps executed. -/
def updatePhysics (isRunning : Bool) (timeScale accumulator deltaTime : ℚ) : ℚ × ℕ :=
  if isRunning = false then (accumulator, 0)
  else
    let clampedDeltaTime := min deltaTime 0.1
    let scaledDeltaTime := clampedDeltaTime * timeScale
    let acc := accumulator + scaledDeltaTime
    let r := runSteps 10 acc
    if 10 ≤ r.2 ∧ FIXED_TIME_STEP < r.1 then (0, r.2) else r

/-! ## Vector objects -/

/-- A plain 3-component vector, the literal x-y-z objects of the source. -/
structure Vec3 where
  x : ℝ
  y : ℝ
  z : ℝ

/-- The zero vector. -/
noncomputable def Vec3.zero : Vec3 := ⟨0, 0, 0⟩

/-- Componentwise sum. -/
noncomputable def Vec3.add (a b : Vec3) : Vec3 := ⟨a.x + b.x, a.y + b.y, a.z + b.z⟩

/-- Componentwise difference. -/
noncomputable def Vec3.sub (a b : Vec3) : Vec3 := ⟨a.x - b.x, a.y - b.y, a.z - b.z⟩

/-- Every component multiplied by a scalar, as the source writes out per
component. -/
noncomputable def Vec3.smul (c : ℝ) (a : Vec3) : Vec3 := ⟨c * a.x, c * a.y, c * a.z⟩

/-- Vector magnitude: the square root of the sum of squared components. -/
noncomputable def Vec3.mag (v : Vec3) : ℝ :=
  Real.sqrt (v.x * v.x + v.y * v.y + v.z * v.z)

/-! ## Tether line lengths and tension (src/src/physics/physics-wind.js) -/

/-- updateEffectiveLineLengths (lines 387-398): the base length is 30 m
adjusted by up to 50 percent by the overall control, and the differential
control shifts up to 20 percent between the lines. Returns
(leftLineLength, rightLineLength). -/
noncomputable def updateEffectiveLineLengths (overall differential : ℝ) : ℝ × ℝ :=
  let baseLengthFactor := 1.0 + overall * 0.5
  let baseLength := 30.0 * baseLengthFactor
  let diffFactor := differential * 0.2
  (baseLength * (1 - diffFactor), baseLength * (1 + diffFactor))

/-- calculateLineTension (lines 487-503): the control input shortens the
effective length by up to 30 percent, strain is clamped at zero for a slack
line, and tension is elasticity times strain times (1 + strain). The
elasticity is read from the tether configuration (0.05 by default) and is
passed here as a parameter. -/
noncomputable def calculateLineTension (elasticity distance lineLength input : ℝ) : ℝ :=
  let inputFactor := 1.0 - input * 0.3
  let effectiveLength := lineLength * inputFactor
  let strain := max 0 (distance / effectiveLength - 1)
  elasticity * strain * (1 + strain)

/-! ## Wind field (src/src/physics/physics-wind.js, lines 14-30 and 113-147) -/

/-- The wind state record of the module (lines 14-30). -/
structure WindState where
  baseSpeed : ℝ
  baseDirection : Vec3
  currentSpeed : ℝ
  currentDirection : Vec3
  gustStrength : ℝ
  gustFrequency : ℝ
  turbulence : ℝ
  userWindScale : ℝ

/-- The initial value of the wind state (lines 14-30). -/
noncomputable def defaultWind : WindState :=
  { baseSpeed := 5.0, baseDirection := ⟨0, 0, 1⟩, currentSpeed := 5.0,
    currentDirection := ⟨0, 0, 1⟩, gustStrength := 0.2, gustFrequency := 0.2,
    turbulence := 0.1, userWindScale := 1.0 }

/-- updateWindVariation (lines 113-147). The argument time stands for
performance.now() divided by 1000, and r1 to r4 for the four Math.random()
draws, each in the range 0 to 1. A sine gust and additive random turbulence
form the variation factor, the new speed is the product of base speed,
variation factor and user scale floored at the constant 0.1, and the
direction is perturbed and renormalised. -/
noncomputable def updateWindVariation (w : WindState) (time r1 r2 r3 r4 : ℝ) : WindState :=
  let gustFactor := Real.sin (time * w.gustFrequency) * w.gustStrength
  let turbulenceFactor := (r1 - 0.5) * w.turbulence
  let variationFactor := 1.0 + gustFactor + turbulenceFactor
  let newSpeed := max 0.1 (w.baseSpeed * variationFactor * w.userWindScale)
  let directionVariation := w.turbulence * 0.1
  let d : Vec3 := ⟨w.baseDirection.x + (r2 - 0.5) * directionVariation,
                   w.baseDirection.y + (r3 - 0.5) * directionVariation,
                   w.baseDirection.z + (r4 - 0.5) * directionVariation⟩
  let m := Vec3.mag d
  { w with currentSpeed := newSpeed,
           currentDirection := ⟨d.x / m, d.y / m, d.z / m⟩ }

/-! ## Aerodynamic lift coefficient (src/src/physics/engine.js, lines 356-371) -/

/-- Optimal angle of attack, about 15 degrees (engine.js line 359). -/
noncomputable def optimalAoA : ℝ := 0.26

/-- Configured maximum lift coefficient (engine.js line 360). -/
noncomputable def maxLiftCoef : ℝ := 1.2

/-- Stall scaling applied past the stall threshold (engine.js line 369): a
linear ramp from 1 at 1.3 times the optimal angle of attack down to 0 at 90
degrees, with the inner min clamping it at 0 past 90 degrees. -/
noncomputable def stallFactor (angleOfAttack : ℝ) : ℝ :=
  1 - min 1 ((angleOfAttack - optimalAoA * 1.3) / (Real.pi / 2 - optimalAoA * 1.3))

/-- The lift coefficient as a function of the angle of attack (engine.js
lines 362-371): a sine curve scaled so that its first peak sits at the
optimal angle of attack, multiplied by the stall factor once the angle
exceeds 1.3 times the optimal angle. -/
noncomputable def liftCoef (angleOfAttack : ℝ) : ℝ :=
  let c := maxLiftCoef * Real.sin (2 * angleOfAttack * (Real.pi / 4) / optimalAoA)
  if angleOfAttack > optimalAoA * 1.3 then c * stallFactor angleOfAttack else c

/-! ## Kite state (src/src/kite.js) -/

/-- The kite properties record (kite.js lines 17-57), restricted to the
numeric fields the physics reads and writes. The two smoothed-acceleration
fields are created lazily by the source on first use and start at zero. -/
structure KiteState where
  mass : ℝ
  area : ℝ
  dragCoefficient : ℝ
  position : Vec3
  velocity : Vec3
  rotation : Vec3
  angularVelocity : Vec3
  momentOfInertia : Vec3
  bridleConnectionPoint : Vec3
  smoothedAcceleration : Vec3
  smoothedAngularAcceleration : Vec3

/-- The initial kite properties (kite.js lines 17-57). -/
noncomputable def defaultKite : KiteState :=
  { mass := 0.5, area := 1.2, dragCoefficient := 0.8,
    position := ⟨0, 2, 0⟩, velocity := ⟨0, 0, 0⟩, rotation := ⟨0, 0, 0⟩,
    angularVelocity := ⟨0, 0, 0⟩, momentOfInertia := ⟨0.1, 0.2, 0.15⟩,
    bridleConnectionPoint := ⟨0, 0, 0.5⟩,
    smoothedAcceleration := ⟨0, 0, 0⟩, smoothedAngularAcceleration := ⟨0, 0, 0⟩ }

/-- resetKite (kite.js lines 578-612): position at the end of the 30 m
tether at 30 degrees of elevation from the pilot at z = -10, rotation
aligned to that elevation, velocity and angular velocity zeroed. The
function assigns exactly these four fields of the kite properties; every
other field, the smoothed-acceleration accumulators included, is left as it
was. -/
noncomputable def resetKite (k : KiteState) : KiteState :=
  let tetherLength : ℝ := 30.0
  let elevationAngle : ℝ := Real.pi / 6
  { k with
    position := ⟨0, Real.sin elevationAngle * tetherLength,
                 -10 - Real.cos elevationAngle * tetherLength⟩,
    velocity := ⟨0, 0, 0⟩,
    rotation := ⟨-(Real.pi / 2 - elevationAngle), 0, 0⟩,
    angularVelocity := ⟨0, 0, 0⟩ }

/-- A JavaScript number as the force-application entry points see it: a
numeric value or NaN. -/
structure JsNum where
  isNaN : Bool
  val : ℝ

/-- A force vector whose components may each be NaN. -/
structure JsVec3 where
  x : JsNum
  y : JsNum
  z : JsNum

/-- Body of applyForce (kite.js lines 625-681), reached only for a force
with ordinary numeric components: exponential smoothing of the acceleration
with alpha 0.15, velocity update, proportional damping of 5 percent,
magnitude clamp at 5, position update. The trailing NaN check on the new
position (lines 678-681) cannot fire in the real-valued model and is
omitted. -/
noncomputable def applyForceBody (k : KiteState) (force : Vec3) : KiteState :=
  let alpha : ℝ := 0.15
  let rawAcceleration : Vec3 :=
    ⟨force.x / k.mass, force.y / k.mass, force.z / k.mass⟩
  let sm : Vec3 :=
    ⟨alpha * rawAcceleration.x + (1 - alpha) * k.smoothedAcceleration.x,
     alpha * rawAcceleration.y + (1 - alpha) * k.smoothedAcceleration.y,
     alpha * rawAcceleration.z + (1 - alpha) * k.smoothedAcceleration.z⟩
  let v1 : Vec3 := ⟨k.velocity.x + sm.x, k.velocity.y + sm.y, k.velocity.z + sm.z⟩
  let dampingFactor : ℝ := 0.05
  let v2 : Vec3 := ⟨v1.x * (1 - dampingFactor), v1.y * (1 - dampingFactor),
                    v1.z * (1 - dampingFactor)⟩
  let maxVelocity : ℝ := 5.0
  let velocityMagSquared := v2.x * v2.x + v2.y * v2.y + v2.z * v2.z
  let v3 : Vec3 :=
    if velocityMagSquared > maxVelocity * maxVelocity then
      let velocityMag := Real.sqrt velocityMagSquared
      let scale := maxVelocity / velocityMag
      ⟨v2.x * scale, v2.y * scale, v2.z * scale⟩
    else v2
  let p : Vec3 := ⟨k.position.x + v3.x, k.position.y + v3.y, k.position.z + v3.z⟩
  { k with smoothedAcceleration := sm, velocity := v3, position := p }

/-- applyForce (kite.js lines 618-682): when any component of the incoming
force is NaN, the update is logged and skipped before any state is touched;
otherwise the body above runs on the numeric values. -/
noncomputable def applyForce (k : KiteState) (force : JsVec3) : KiteState :=
  if force.x.isNaN || force.y.isNaN || force.z.isNaN then k
  else applyForceBody k ⟨force.x.val, force.y.val, force.z.val⟩

/-! ## Vector normalisation entry points (src/src/utils.js lines 129-137
and src/unnamed/part_002 lines 472-481)

The real-valued model has no NaN, so freedom from NaN output appears here
as totality together with the division guards below: neither function ever
divides by a zero magnitude. -/

/-- The normalize method of the Vector3 class (utils.js lines 129-137): it
divides by the magnitude only when the magnitude is strictly positive, and
otherwise returns the vector unchanged. -/
noncomputable def v3normalize (v : Vec3) : Vec3 :=
  let mag := Vec3.mag v
  if mag > 0 then ⟨v.x / mag, v.y / mag, v.z / mag⟩ else v

/-- The standalone normalizeVector utility (part_002 lines 472-481): it
returns the zero vector whenever the magnitude is below 1e-4, and divides
otherwise. -/
noncomputable def normalizeVector (v : Vec3) : Vec3 :=
  let mag := Real.sqrt (v.x * v.x + v.y * v.y + v.z * v.z)
  if mag < 0.0001 then ⟨0, 0, 0⟩
  else ⟨v.x / mag, v.y / mag, v.z / mag⟩

/-! ## Tether forces (src/src/physics/physics-wind.js, lines 294-320,
405-503 and 613-742) -/

/-- The tether configuration record (physics-wind.js lines 294-312),
restricted to the fields the force computation reads. -/
structure TetherConfig where
  leftLineLength : ℝ
  rightLineLength : ℝ
  lineElasticity : ℝ
  operatorPosition : Vec3
  leftInput : ℝ
  rightInput : ℝ

/-- The initial tether configuration (physics-wind.js lines 294-312). -/
noncomputable def defaultTetherConfig : TetherConfig :=
  { leftLineLength := 30.0, rightLineLength := 30.0, lineElasticity := 0.05,
    operatorPosition := ⟨0, 0, -10⟩, leftInput := 0.5, rightInput := 0.5 }

/-- Left line attachment point relative to the kite (line 319). -/
noncomputable def leftAttachPoint : Vec3 := ⟨-0.5, 0, 0⟩

/-- Right line attachment point relative to the kite (line 320). -/
noncomputable def rightAttachPoint : Vec3 := ⟨0.5, 0, 0⟩

/-- calculateDistance (lines 472-478). -/
noncomputable def calculateDistance (point1 point2 : Vec3) : ℝ :=
  Real.sqrt ((point2.x - point1.x) * (point2.x - point1.x) +
    (point2.y - point1.y) * (point2.y - point1.y) +
    (point2.z - point1.z) * (point2.z - point1.z))

/-- World-space position of the left hand of the operator (lines 432-436):
half a metre to the left and one metre up from the operator position. -/
noncomputable def operatorLeftHand (cfg : TetherConfig) : Vec3 :=
  ⟨cfg.operatorPosition.x - 0.5, cfg.operatorPosition.y + 1.0, cfg.operatorPosition.z⟩

/-- World-space position of the right hand of the operator (lines 438-442). -/
noncomputable def operatorRightHand (cfg : TetherConfig) : Vec3 :=
  ⟨cfg.operatorPosition.x + 0.5, cfg.operatorPosition.y + 1.0, cfg.operatorPosition.z⟩

/-- World-space bridle connection point (lines 411-415): kite position plus
the bridle connection offset. -/
noncomputable def bridleConnectionOf (k : KiteState) : Vec3 :=
  ⟨k.position.x + k.bridleConnectionPoint.x,
   k.position.y + k.bridleConnectionPoint.y,
   k.position.z + k.bridleConnectionPoint.z⟩

/-- calculateTetherForces (lines 405-464): distances from the kite
attachment points to the operator hands, a ground proximity factor that
strengthens tension near the ground, and the per-line tensions. Returns
the pair (leftTension, rightTension). -/
noncomputable def calculateTetherForces (cfg : TetherConfig) (k : KiteState) : ℝ × ℝ :=
  let bridleConnection := bridleConnectionOf k
  let leftAttach : Vec3 := ⟨k.position.x + leftAttachPoint.x,
    k.position.y + leftAttachPoint.y, k.position.z + leftAttachPoint.z⟩
  let rightAttach : Vec3 := ⟨k.position.x + rightAttachPoint.x,
    k.position.y + rightAttachPoint.y, k.position.z + rightAttachPoint.z⟩
  let leftDistance := calculateDistance leftAttach (operatorLeftHand cfg)
  let rightDistance := calculateDistance rightAttach (operatorRightHand cfg)
  let groundProximityFactor := max 1.0 (2.0 * (1.0 - min 1.0 (bridleConnection.y / 5.0)))
  (calculateLineTension cfg.lineElasticity leftDistance cfg.leftLineLength cfg.leftInput *
      groundProximityFactor,
   calculateLineTension cfg.lineElasticity rightDistance cfg.rightLineLength cfg.rightInput *
      groundProximityFactor)

/-- The non-linear tension-to-force scaling of getTetherForces
(lines 685-689): tension to the power 0.8 times 5. -/
noncomputable def scaleTension (tension : ℝ) : ℝ := tension ^ (0.8 : ℝ) * 5.0

/-- Direction normalisation of getTetherForces (lines 660-683): below the
1e-4 magnitude guard the direction defaults to straight up. -/
noncomputable def normalizeDirOrUp (d : Vec3) : Vec3 :=
  let m := Real.sqrt (d.x * d.x + d.y * d.y + d.z * d.z)
  if m > 0.0001 then ⟨d.x / m, d.y / m, d.z / m⟩ else ⟨0, 1, 0⟩

/-- The maximum-force clamp of getTetherForces (lines 717-727): a force
whose squared magnitude exceeds 400 is rescaled to magnitude 20. -/
noncomputable def clampToMaxForce (f : Vec3) : Vec3 :=
  let maxForce : ℝ := 20.0
  let forceMagSquared := f.x * f.x + f.y * f.y + f.z * f.z
  if forceMagSquared > maxForce * maxForce then
    let forceMag := Real.sqrt forceMagSquared
    ⟨f.x * (maxForce / forceMag), f.y * (maxForce / forceMag),
     f.z * (maxForce / forceMag)⟩
  else f

/-- getTetherForces (lines 613-742): per-line tensions, unit directions
from the bridle connection to the operator hands, the non-linear tension
scaling, the summed force clamped at 20, and only after the clamp the
velocity-proportional damping subtraction. The NaN validation branches of
the source return zero force on NaN and cannot fire in the real-valued
model. -/
noncomputable def getTetherForces (cfg : TetherConfig) (k : KiteState) : Vec3 :=
  let t := calculateTetherForces cfg k
  let bridleConnection := bridleConnectionOf k
  let leftDir := normalizeDirOrUp (Vec3.sub (operatorLeftHand cfg) bridleConnection)
  let rightDir := normalizeDirOrUp (Vec3.sub (operatorRightHand cfg) bridleConnection)
  let leftForce := Vec3.smul (scaleTension t.1) leftDir
  let rightForce := Vec3.smul (scaleTension t.2) rightDir
  let totalForce := Vec3.add leftForce rightForce
  let clamped := clampToMaxForce totalForce
  let dampingFactor : ℝ := 0.8
  ⟨clamped.x - k.velocity.x * dampingFactor,
   clamped.y - k.velocity.y * dampingFactor,
   clamped.z - k.velocity.z * dampingFactor⟩

/-! ## Steering torque (src/src/physics/engine.js, lines 447-599) -/

/-- The left tension approximation of calculateAndApplyTorque (engine.js
line 479): half of the x component of the net tether force. -/
noncomputable def torqueLeftTension (tetherForceValues : Vec3) : ℝ :=
  tetherForceValues.x * 0.5

/-- The right tension approximation of calculateAndApplyTorque (engine.js
line 480): also half of the x component of the net tether force, identical
to the left one. -/
noncomputable def torqueRightTension (tetherForceValues : Vec3) : ℝ :=
  tetherForceValues.x * 0.5

/-- Direction normalisation of calculateAndApplyTorque (engine.js lines
495-509): unlike the one in getTetherForces, the guard branch leaves the
vector unnormalised. -/
noncomputable def normalizeDirOrKeep (d : Vec3) : Vec3 :=
  let m := Real.sqrt (d.x * d.x + d.y * d.y + d.z * d.z)
  if m > 0.0001 then ⟨d.x / m, d.y / m, d.z / m⟩ else d

/-- The torque that calculateAndApplyTorque (engine.js lines 447-599)
passes to applyTorque, as a function of the kite state and of the net
tether force vector that the source re-reads from getTetherForces at line
475: the cross product of the bridle arm with the combined line force, the
differential yaw term of line 558, the sine stabilising torque, the angular
damping and the overall scaling by 0.3. -/
noncomputable def calcAppliedTorque (cfg : TetherConfig) (k : KiteState)
    (tetherForceValues : Vec3) : Vec3 :=
  let bridleConnection := bridleConnectionOf k
  let leftTension := torqueLeftTension tetherForceValues
  let rightTension := torqueRightTension tetherForceValues
  let leftDir := normalizeDirOrKeep (Vec3.sub (operatorLeftHand cfg) bridleConnection)
  let rightDir := normalizeDirOrKeep (Vec3.sub (operatorRightHand cfg) bridleConnection)
  let bridleArm := k.bridleConnectionPoint
  let leftForce := Vec3.smul leftTension leftDir
  let rightForce := Vec3.smul rightTension rightDir
  let totalForce := Vec3.add leftForce rightForce
  let torque : Vec3 :=
    ⟨bridleArm.y * totalForce.z - bridleArm.z * totalForce.y,
     bridleArm.z * totalForce.x - bridleArm.x * totalForce.z,
     bridleArm.x * totalForce.y - bridleArm.y * totalForce.x⟩
  let tensionDifference := rightTension - leftTension
  let differentialTorqueFactor : ℝ := 0.5
  let torque1 : Vec3 :=
    ⟨torque.x, torque.y + tensionDifference * differentialTorqueFactor, torque.z⟩
  let stabilizingTorque : Vec3 :=
    ⟨-Real.sin k.rotation.x * 0.1, -Real.sin k.rotation.y * 0.01,
     -Real.sin k.rotation.z * 0.2⟩
  let torque2 := Vec3.add torque1 stabilizingTorque
  let dampingFactor : ℝ := 0.15
  let dampingTorque : Vec3 :=
    ⟨-k.angularVelocity.x * dampingFactor, -k.angularVelocity.y * dampingFactor,
     -k.angularVelocity.z * dampingFactor⟩
  let torque3 := Vec3.add torque2 dampingTorque
  let torqueScaleFactor : ℝ := 0.3
  ⟨torque3.x * torqueScaleFactor, torque3.y * torqueScaleFactor,
   torque3.z * torqueScaleFactor⟩

/-- Reference variant of calcAppliedTorque with the differential yaw line
(engine.js line 558) deleted and everything else identical, used to state
that the differential term contributes nothing to the applied torque. -/
noncomputable def calcAppliedTorqueNoDiff (cfg : TetherConfig) (k : KiteState)
    (tetherForceValues : Vec3) : Vec3 :=
  let bridleConnection := bridleConnectionOf k
  let leftTension := torqueLeftTension tetherForceValues
  let rightTension := torqueRightTension tetherForceValues
  let leftDir := normalizeDirOrKeep (Vec3.sub (operatorLeftHand cfg) bridleConnection)
  let rightDir := normalizeDirOrKeep (Vec3.sub (operatorRightHand cfg) bridleConnection)
  let bridleArm := k.bridleConnectionPoint
  let leftForce := Vec3.smul leftTension leftDir
  let rightForce := Vec3.smul rightTension rightDir
  let totalForce := Vec3.add leftForce rightForce
  let torque : Vec3 :=
    ⟨bridleArm.y * totalForce.z - bridleArm.z * totalForce.y,
     bridleArm.z * totalForce.x - bridleArm.x * totalForce.z,
     bridleArm.x * totalForce.y - bridleArm.y * totalForce.x⟩
  let stabilizingTorque : Vec3 :=
    ⟨-Real.sin k.rotation.x * 0.1, -Real.sin k.rotation.y * 0.01,
     -Real.sin k.rotation.z * 0.2⟩
  let torque2 := Vec3.add torque stabilizingTorque
  let dampingFactor : ℝ := 0.15
  let dampingTorque : Vec3 :=
    ⟨-k.angularVelocity.x * dampingFactor, -k.angularVelocity.y * dampingFactor,
     -k.angularVelocity.z * dampingFactor⟩
  let torque3 := Vec3.add torque2 dampingTorque
  let torqueScaleFactor : ℝ := 0.3
  ⟨torque3.x * torqueScaleFactor, torque3.y * torqueScaleFactor,
   torque3.z * torqueScaleFactor⟩

/-- Kite state for the tether force counterexample: the default kite moved
to the origin, where both lines are slack, with a horizontal velocity of
100 m per second. -/
noncomputable def fastKite : KiteState :=
  { defaultKite with position := ⟨0, 0, 0⟩, velocity := ⟨100, 0, 0⟩ }

end KiteSim

namespace KiteSim

/-! ## Theorems -/

/-- Claim C10: for every overall adjustment in the range -1 to 1 and every
differential adjustment in the range -1 to 1, the recomputed left and right
line lengths sum to exactly twice the base length 30 * (1 + 0.5 * overall):
the differential adjustment only shifts length between the lines. -/
theorem lineLengths_sum_preserved (overall differential : ℝ)
    (ho1 : -1 ≤ overall) (ho2 : overall ≤ 1)
    (hd1 : -1 ≤ differential) (hd2 : differential ≤ 1) :
    (updateEffectiveLineLengths overall differential).1 +
      (updateEffectiveLineLengths overall differential).2 =
      2 * (30 * (1 + 0.5 * overall)) := by
  simp only [updateEffectiveLineLengths]
  ring

/-- Witness for lineLengths_sum_preserved at overall = 1/2,
differential = -1/3. -/
theorem lineLengths_sum_preserved_witness :
    (-1 ≤ (1/2 : ℝ)) ∧
      (updateEffectiveLineLengths (1/2) (-1/3)).1 +
        (updateEffectiveLineLengths (1/2) (-1/3)).2 =
        2 * (30 * (1 + 0.5 * (1/2))) :=
  ⟨by norm_num,
    lineLengths_sum_preserved (1/2) (-1/3) (by norm_num) (by norm_num)
      (by norm_num) (by norm_num)⟩

/-- Claim C2: with positive elasticity, positive nominal length and an input
in the range 0 to 1, the line tension is zero whenever the distance is at
most the effective length lineLength * (1 - input * 0.3), is always
non-negative, and is strictly increasing in the distance from the effective
length on. -/
theorem calculateLineTension_spec (e L i : ℝ) (he : 0 < e) (hL : 0 < L)
    (hi0 : 0 ≤ i) (hi1 : i ≤ 1) :
    (∀ d, d ≤ L * (1 - i * 0.3) → calculateLineTension e d L i = 0) ∧
    (∀ d, 0 ≤ calculateLineTension e d L i) ∧
    StrictMonoOn (fun d => calculateLineTension e d L i)
      (Set.Ici (L * (1 - i * 0.3))) := by
  have heff : 0 < L * (1 - i * 0.3) := by nlinarith
  refine ⟨?_, ?_, ?_⟩
  · intro d hd
    have h1 : d / (L * (1 - i * 0.3)) ≤ 1 := (div_le_one heff).mpr hd
    have h2 : d / (L * (1.0 - i * 0.3)) - 1 ≤ 0 := by
      norm_num at h1 ⊢
      linarith
    simp only [calculateLineTension]
    rw [max_eq_left h2]
    ring
  · intro d
    simp only [calculateLineTension]
    have hs : 0 ≤ max 0 (d / (L * (1.0 - i * 0.3)) - 1) := le_max_left _ _
    have h1 : (0:ℝ) ≤ 1 + max 0 (d / (L * (1.0 - i * 0.3)) - 1) := by linarith
    exact mul_nonneg (mul_nonneg he.le hs) h1
  · intro a ha b hb hab
    simp only [Set.mem_Ici] at ha hb
    have heq : (1.0 - i * 0.3 : ℝ) = 1 - i * 0.3 := by norm_num
    have ha1 : 1 ≤ a / (L * (1 - i * 0.3)) := (one_le_div heff).mpr ha
    have hb1 : 1 ≤ b / (L * (1 - i * 0.3)) := (one_le_div heff).mpr hb
    have hsa : max 0 (a / (L * (1 - i * 0.3)) - 1) = a / (L * (1 - i * 0.3)) - 1 :=
      max_eq_right (by linarith)
    have hsb : max 0 (b / (L * (1 - i * 0.3)) - 1) = b / (L * (1 - i * 0.3)) - 1 :=
      max_eq_right (by linarith)
    have hlt : a / (L * (1 - i * 0.3)) < b / (L * (1 - i * 0.3)) := by gcongr
    simp only [calculateLineTension, heq, hsa, hsb]
    nlinarith [mul_pos he (sub_pos.mpr hlt),
      mul_pos (mul_pos he (sub_pos.mpr hlt))
        (show (0:ℝ) < a / (L * (1 - i * 0.3)) + b / (L * (1 - i * 0.3)) by linarith)]

/-- Witness for calculateLineTension_spec at elasticity 0.05, length 30,
input 1/2: the slack case evaluated at distance 10. -/
theorem calculateLineTension_spec_witness :
    (0 : ℝ) < 0.05 ∧ calculateLineTension 0.05 10 30 (1/2) = 0 :=
  ⟨by norm_num,
    (calculateLineTension_spec 0.05 30 (1/2) (by norm_num) (by norm_num)
      (by norm_num) (by norm_num)).1 10 (by norm_num)⟩

/-- Helper: the bounded loop never runs more sub-steps than its fuel. -/
theorem runSteps_le (fuel : ℕ) (acc : ℚ) : (runSteps fuel acc).2 ≤ fuel := by
  induction fuel generalizing acc with
  | zero => simp [runSteps]
  | succ n ih =>
    simp only [runSteps]
    split
    · simpa using ih (acc - FIXED_TIME_STEP)
    · simp

/-- Claim C3: a call to the improved updatePhysics executes at most 10 fixed
sub-steps, and when the bound is hit while the accumulator still exceeds the
fixed step (the overload event) the accumulator is exactly zero at return. -/
theorem updatePhysics_substep_bound_and_drain (isRunning : Bool)
    (timeScale accumulator deltaTime : ℚ) :
    (updatePhysics isRunning timeScale accumulator deltaTime).2 ≤ 10 ∧
    (isRunning = true →
      10 ≤ (runSteps 10 (accumulator + min deltaTime 0.1 * timeScale)).2 →
      FIXED_TIME_STEP < (runSteps 10 (accumulator + min deltaTime 0.1 * timeScale)).1 →
      (updatePhysics isRunning timeScale accumulator deltaTime).1 = 0) := by
  cases isRunning with
  | false => simp [updatePhysics]
  | true =>
    simp only [updatePhysics, Bool.true_eq_false, if_false]
    constructor
    · split
      · simpa using runSteps_le 10 (accumulator + min deltaTime 0.1 * timeScale)
      · exact runSteps_le 10 (accumulator + min deltaTime 0.1 * timeScale)
    · intro _ hsteps hacc
      rw [if_pos ⟨hsteps, hacc⟩]

/-- Witness for updatePhysics_substep_bound_and_drain: with the accumulator
at 1 s, a 0.1 s frame and time scale 1, the loop hits the 10-step bound with
more than one fixed step pending, and the returned accumulator is zero. -/
theorem updatePhysics_overload_witness :
    10 ≤ (runSteps 10 ((1 : ℚ) + min (1/10 : ℚ) 0.1 * 1)).2 ∧
    (updatePhysics true 1 1 (1/10)).1 = 0 :=
  ⟨by norm_num [runSteps, FIXED_TIME_STEP, min_def],
    (updatePhysics_substep_bound_and_drain true 1 1 (1/10)).2 rfl
      (by norm_num [runSteps, FIXED_TIME_STEP, min_def])
      (by norm_num [runSteps, FIXED_TIME_STEP, min_def])⟩

/-- Claim C4 counterexample: resetKite does not clear the
smoothed-acceleration accumulator. From a state whose accumulator holds
(1, 0, 0), the state after reset still holds (1, 0, 0), so the full kite
state after reset is not independent of the prior trajectory. -/
theorem resetKite_accumulator_not_cleared :
    (resetKite { defaultKite with
        smoothedAcceleration := ⟨1, 0, 0⟩ }).smoothedAcceleration ≠ Vec3.zero := by
  simp [resetKite, Vec3.zero]

/-- Claim C4 as amended: resetKite restores the canonical launch pose, with
the position at the end of the 30 m tether at 30 degrees elevation, the
rotation aligned to that elevation and both velocities zeroed, and any two
resets agree on these four fields; the smoothed-acceleration and
smoothed-angular-acceleration accumulators, however, are left unchanged
rather than cleared. -/
theorem resetKite_canonical_pose (k : KiteState) :
    (resetKite k).position = ⟨0, 15, -10 - 15 * Real.sqrt 3⟩ ∧
    (resetKite k).velocity = ⟨0, 0, 0⟩ ∧
    (resetKite k).rotation = ⟨-(Real.pi / 3), 0, 0⟩ ∧
    (resetKite k).angularVelocity = ⟨0, 0, 0⟩ ∧
    (resetKite k).smoothedAcceleration = k.smoothedAcceleration ∧
    (resetKite k).smoothedAngularAcceleration = k.smoothedAngularAcceleration := by
  refine ⟨?_, rfl, ?_, rfl, rfl, rfl⟩
  · simp only [resetKite, Real.sin_pi_div_six, Real.cos_pi_div_six, Vec3.mk.injEq]
    refine ⟨trivial, by norm_num, by ring⟩
  · simp only [resetKite, Vec3.mk.injEq]
    refine ⟨by ring, trivial, trivial⟩

/-- Claim C8: a force with a NaN component is rejected by applyForce as a
no-op: the entire kite state, smoothing accumulators included, is returned
unchanged. -/
theorem applyForce_nan_noop (k : KiteState) (force : JsVec3)
    (h : force.x.isNaN = true ∨ force.y.isNaN = true ∨ force.z.isNaN = true) :
    applyForce k force = k := by
  rcases h with h | h | h <;> simp [applyForce, h]

/-- Witness for applyForce_nan_noop: a force whose x component is NaN
leaves the default kite state untouched. -/
theorem applyForce_nan_noop_witness :
    (JsVec3.mk ⟨true, 0⟩ ⟨false, 1⟩ ⟨false, 2⟩).x.isNaN = true ∧
    applyForce defaultKite (JsVec3.mk ⟨true, 0⟩ ⟨false, 1⟩ ⟨false, 2⟩) = defaultKite :=
  ⟨rfl, applyForce_nan_noop defaultKite _ (Or.inl rfl)⟩

/-- Claim C5 counterexample: with the user wind scale at zero, the default
base speed 5 and a phase where both gust and turbulence vanish, the updated
current speed is the constant floor 0.1, not 0.1 times the base speed
(which would be 0.5). -/
theorem windFloor_counterexample :
    (updateWindVariation { defaultWind with userWindScale := 0 }
        0 (1/2) (1/2) (1/2) (1/2)).currentSpeed = 0.1 ∧
    (updateWindVariation { defaultWind with userWindScale := 0 }
        0 (1/2) (1/2) (1/2) (1/2)).currentSpeed ≠
      0.1 * ({ defaultWind with userWindScale := 0 } : WindState).baseSpeed := by
  have h : (updateWindVariation { defaultWind with userWindScale := 0 }
      0 (1/2) (1/2) (1/2) (1/2)).currentSpeed = 0.1 := by
    simp only [updateWindVariation, defaultWind]
    norm_num
  refine ⟨h, ?_⟩
  rw [h]
  simp only [defaultWind]
  norm_num

/-- Claim C5 as amended: after a wind update with the gust and turbulence
parameters within their default bounds, the current speed is at least the
constant floor 0.1, is at least 0.1 times base speed times user scale, and
with the user scale at zero it equals the constant 0.1 exactly, whatever
the gust and turbulence phase; the floor is the constant 0.1 m per second,
not 0.1 times the base speed. -/
theorem updateWindVariation_floor (w : WindState) (time r1 r2 r3 r4 : ℝ)
    (hg0 : 0 ≤ w.gustStrength) (hg : w.gustStrength ≤ 0.2)
    (ht0 : 0 ≤ w.turbulence) (ht : w.turbulence ≤ 0.1)
    (hr0 : 0 ≤ r1) (hr1 : r1 ≤ 1)
    (hb : 0 ≤ w.baseSpeed) (hu : 0 ≤ w.userWindScale) :
    0.1 ≤ (updateWindVariation w time r1 r2 r3 r4).currentSpeed ∧
    0.1 * w.baseSpeed * w.userWindScale ≤
      (updateWindVariation w time r1 r2 r3 r4).currentSpeed ∧
    (w.userWindScale = 0 →
      (updateWindVariation w time r1 r2 r3 r4).currentSpeed = 0.1) := by
  have hcur : (updateWindVariation w time r1 r2 r3 r4).currentSpeed =
      max 0.1 (w.baseSpeed *
        (1.0 + Real.sin (time * w.gustFrequency) * w.gustStrength +
          (r1 - 0.5) * w.turbulence) * w.userWindScale) := rfl
  set s := Real.sin (time * w.gustFrequency) with hs
  have hs1 : -1 ≤ s := Real.neg_one_le_sin _
  have hvf : (0.75 : ℝ) ≤ 1.0 + s * w.gustStrength + (r1 - 0.5) * w.turbulence := by
    nlinarith [mul_nonneg hg0 (show (0:ℝ) ≤ s + 1 by linarith),
      mul_nonneg ht0 hr0]
  refine ⟨?_, ?_, ?_⟩
  · rw [hcur]; exact le_max_left _ _
  · rw [hcur]
    refine le_trans ?_ (le_max_right _ _)
    nlinarith [mul_nonneg (mul_nonneg hb hu)
      (show (0:ℝ) ≤ 1.0 + s * w.gustStrength + (r1 - 0.5) * w.turbulence - 0.1 by
        linarith)]
  · intro h0
    rw [hcur, h0, mul_zero]
    exact max_eq_left (by norm_num)

/-- Claim C6 counterexample: the lift coefficient is not monotonically
decreasing beyond the stall threshold 1.3 times the optimal angle of
attack: at 0.78 rad the scaled sine sits at its trough and the coefficient
is negative, while at 1.3 rad the sine is back at a crest and the
coefficient is positive, so between these two supra-stall angles the
coefficient strictly increases. -/
theorem liftCoef_not_monotone_after_stall :
    optimalAoA * 1.3 < 0.78 ∧ (0.78 : ℝ) < 1.3 ∧ liftCoef 0.78 < liftCoef 1.3 := by
  have hpi : (3.141592 : ℝ) < Real.pi := Real.pi_gt_d6
  have hpi2 : Real.pi < 3.15 := Real.pi_lt_d2
  have hc0 : (0:ℝ) < Real.pi / 2 - optimalAoA * 1.3 := by
    simp only [optimalAoA]; linarith
  refine ⟨by norm_num [optimalAoA], by norm_num, ?_⟩
  have harg78 : 2 * (0.78:ℝ) * (Real.pi / 4) / optimalAoA = Real.pi / 2 + Real.pi := by
    simp only [optimalAoA]; ring
  have harg13 : 2 * (1.3:ℝ) * (Real.pi / 4) / optimalAoA = Real.pi / 2 + 2 * Real.pi := by
    simp only [optimalAoA]; ring
  have hsin78 : Real.sin (2 * (0.78:ℝ) * (Real.pi / 4) / optimalAoA) = -1 := by
    rw [harg78, Real.sin_add_pi, Real.sin_pi_div_two]
  have hsin13 : Real.sin (2 * (1.3:ℝ) * (Real.pi / 4) / optimalAoA) = 1 := by
    rw [harg13, Real.sin_add_two_pi, Real.sin_pi_div_two]
  have hsf78 : 0 < stallFactor 0.78 := by
    simp only [stallFactor, optimalAoA]
    have h1 : ((0.78:ℝ) - 0.26 * 1.3) / (Real.pi / 2 - 0.26 * 1.3) < 1 := by
      rw [div_lt_one (by linarith)]
      linarith
    have h2 := min_le_right (1:ℝ) (((0.78:ℝ) - 0.26 * 1.3) / (Real.pi / 2 - 0.26 * 1.3))
    linarith
  have hsf13 : 0 < stallFactor 1.3 := by
    simp only [stallFactor, optimalAoA]
    have h1 : ((1.3:ℝ) - 0.26 * 1.3) / (Real.pi / 2 - 0.26 * 1.3) < 1 := by
      rw [div_lt_one (by linarith)]
      linarith
    have h2 := min_le_right (1:ℝ) (((1.3:ℝ) - 0.26 * 1.3) / (Real.pi / 2 - 0.26 * 1.3))
    linarith
  have h78 : liftCoef 0.78 < 0 := by
    have hbr : (0.78:ℝ) > optimalAoA * 1.3 := by norm_num [optimalAoA]
    simp only [liftCoef]
    rw [if_pos hbr, hsin78]
    simp only [maxLiftCoef]
    nlinarith [hsf78]
  have h13 : 0 < liftCoef 1.3 := by
    have hbr : (1.3:ℝ) > optimalAoA * 1.3 := by norm_num [optimalAoA]
    simp only [liftCoef]
    rw [if_pos hbr, hsin13]
    simp only [maxLiftCoef]
    nlinarith [hsf13]
  linarith

/-- Claim C6 as amended: the lift coefficient is zero at angle of attack 0
and at 90 degrees, attains the configured maximum 1.2 exactly at the
optimal angle of attack 0.26 rad and never exceeds it, and the stall
scaling factor decreases strictly and linearly from the stall threshold
down to zero at 90 degrees; the lift coefficient itself, however, is not
monotonically decreasing beyond the stall threshold, because the scaled
sine factor keeps oscillating there. -/
theorem liftCoef_spec :
    liftCoef 0 = 0 ∧
    liftCoef (Real.pi / 2) = 0 ∧
    liftCoef optimalAoA = maxLiftCoef ∧
    (∀ a : ℝ, liftCoef a ≤ maxLiftCoef) ∧
    stallFactor (Real.pi / 2) = 0 ∧
    StrictAntiOn stallFactor (Set.Icc (optimalAoA * 1.3) (Real.pi / 2)) := by
  have hpi : (3.141592 : ℝ) < Real.pi := Real.pi_gt_d6
  have hc0 : (0:ℝ) < Real.pi / 2 - optimalAoA * 1.3 := by
    simp only [optimalAoA]; linarith
  have hsfpi : stallFactor (Real.pi / 2) = 0 := by
    simp only [stallFactor]
    rw [div_self (ne_of_gt hc0), min_self]
    ring
  refine ⟨?_, ?_, ?_, ?_, hsfpi, ?_⟩
  · simp only [liftCoef]
    rw [if_neg (by norm_num [optimalAoA])]
    norm_num
  · simp only [liftCoef]
    rw [if_pos (show Real.pi / 2 > optimalAoA * 1.3 by simp only [optimalAoA]; linarith),
      hsfpi, mul_zero]
  · simp only [liftCoef]
    rw [if_neg (by norm_num [optimalAoA])]
    have harg : 2 * optimalAoA * (Real.pi / 4) / optimalAoA = Real.pi / 2 := by
      simp only [optimalAoA]; ring
    rw [harg, Real.sin_pi_div_two, mul_one]
  · intro a
    by_cases hbr : a > optimalAoA * 1.3
    · simp only [liftCoef]
      rw [if_pos hbr]
      have hs1 : Real.sin (2 * a * (Real.pi / 4) / optimalAoA) ≤ 1 := Real.sin_le_one _
      have hs2 : -1 ≤ Real.sin (2 * a * (Real.pi / 4) / optimalAoA) :=
        Real.neg_one_le_sin _
      have hr0 : 0 ≤ (a - optimalAoA * 1.3) / (Real.pi / 2 - optimalAoA * 1.3) :=
        div_nonneg (by linarith) hc0.le
      have hmin0 : 0 ≤ min 1 ((a - optimalAoA * 1.3) / (Real.pi / 2 - optimalAoA * 1.3)) :=
        le_min (by norm_num) hr0
      have hmin1 : min 1 ((a - optimalAoA * 1.3) / (Real.pi / 2 - optimalAoA * 1.3)) ≤ 1 :=
        min_le_left _ _
      have hsf0 : 0 ≤ stallFactor a := by simp only [stallFactor]; linarith
      have hsf1 : stallFactor a ≤ 1 := by simp only [stallFactor]; linarith
      simp only [maxLiftCoef] at *
      nlinarith [mul_nonneg (show (0:ℝ) ≤ 1.2 - 1.2 * Real.sin (2 * a * (Real.pi / 4) / optimalAoA) by linarith) hsf0,
        mul_nonneg (show (0:ℝ) ≤ (1.2:ℝ) by norm_num) (show (0:ℝ) ≤ 1 - stallFactor a by linarith)]
    · simp only [liftCoef]
      rw [if_neg hbr]
      have hs1 : Real.sin (2 * a * (Real.pi / 4) / optimalAoA) ≤ 1 := Real.sin_le_one _
      simp only [maxLiftCoef]
      nlinarith
  · intro a ha b hb hab
    simp only [Set.mem_Icc] at ha hb
    have hra : (a - optimalAoA * 1.3) / (Real.pi / 2 - optimalAoA * 1.3) ≤ 1 := by
      rw [div_le_one hc0]
      linarith [ha.2]
    have hrb : (b - optimalAoA * 1.3) / (Real.pi / 2 - optimalAoA * 1.3) ≤ 1 := by
      rw [div_le_one hc0]
      linarith [hb.2]
    have hlt : (a - optimalAoA * 1.3) / (Real.pi / 2 - optimalAoA * 1.3) <
        (b - optimalAoA * 1.3) / (Real.pi / 2 - optimalAoA * 1.3) :=
      (div_lt_div_iff_of_pos_right hc0).mpr (by linarith)
    simp only [stallFactor, min_eq_right hra, min_eq_right hrb]
    linarith

/-- Claim C9 counterexample: the normalize method of the Vector3 class does
not return the zero vector for magnitudes below 1e-4: on a vector of
magnitude 1e-5 it divides and returns a unit vector. -/
theorem v3normalize_small_not_zero :
    Vec3.mag ⟨1/100000, 0, 0⟩ < 0.0001 ∧
    v3normalize ⟨1/100000, 0, 0⟩ = ⟨1, 0, 0⟩ ∧
    v3normalize ⟨1/100000, 0, 0⟩ ≠ Vec3.zero := by
  have hm : Vec3.mag ⟨1/100000, 0, 0⟩ = 1/100000 := by
    simp only [Vec3.mag]
    rw [show ((1:ℝ)/100000 * (1/100000) + 0 * 0 + 0 * 0) = (1/100000)^2 by ring,
      Real.sqrt_sq (by norm_num : (0:ℝ) ≤ 1/100000)]
  have hv : v3normalize ⟨1/100000, 0, 0⟩ = ⟨1, 0, 0⟩ := by
    simp only [v3normalize, hm]
    rw [if_pos (by norm_num : (1:ℝ)/100000 > 0)]
    norm_num [Vec3.mk.injEq]
  refine ⟨by rw [hm]; norm_num, hv, ?_⟩
  rw [hv]
  simp [Vec3.zero, Vec3.mk.injEq]

/-- Claim C9 as amended: the standalone normalizeVector utility returns the
zero vector whenever the magnitude is below 1e-4, the zero vector in
particular, and divides only above that guard; the normalize method of the
Vector3 class guards only against an exactly zero magnitude, returning the
vector unchanged then (so the zero vector normalises to the zero vector)
but dividing for every positive magnitude, even below 1e-4. Neither
function ever divides by zero, and in this real-valued model both are
total, the counterpart of never producing NaN from finite inputs. -/
theorem normalize_guard_spec (v : Vec3) :
    (Vec3.mag v < 0.0001 → normalizeVector v = Vec3.zero) ∧
    normalizeVector Vec3.zero = Vec3.zero ∧
    (Vec3.mag v = 0 → v3normalize v = v) ∧
    v3normalize Vec3.zero = Vec3.zero := by
  refine ⟨?_, ?_, ?_, ?_⟩
  · intro h
    have h2 : Real.sqrt (v.x * v.x + v.y * v.y + v.z * v.z) < 0.0001 := by
      simpa [Vec3.mag] using h
    simp only [normalizeVector]
    rw [if_pos h2]
    rfl
  · simp only [normalizeVector, Vec3.zero]
    rw [if_pos (show Real.sqrt ((0:ℝ) * 0 + 0 * 0 + 0 * 0) < 0.0001 by
      rw [show ((0:ℝ) * 0 + 0 * 0 + 0 * 0) = 0 by ring, Real.sqrt_zero]
      norm_num)]
  · intro h
    simp only [v3normalize]
    rw [if_neg (by rw [h]; exact lt_irrefl 0)]
  · simp only [v3normalize]
    rw [if_neg ?_]
    have hz : Vec3.mag Vec3.zero = 0 := by
      simp only [Vec3.mag, Vec3.zero]
      rw [show ((0:ℝ) * 0 + 0 * 0 + 0 * 0) = 0 by ring, Real.sqrt_zero]
    rw [hz]
    exact lt_irrefl 0

/-- Claim C1 (code bug): in calculateAndApplyTorque both per-line tensions
are the same half of the x component of the net tether force, so the
differential yaw term, tension difference times sensitivity factor, is
identically zero for every kite state, tether configuration and net tether
force vector: the applied torque coincides with the torque computed with
the differential line deleted, and asymmetric line input produces no
differential yaw contribution through this term. -/
theorem differentialTorque_vanishes (cfg : TetherConfig) (k : KiteState)
    (tetherForceValues : Vec3) :
    torqueRightTension tetherForceValues - torqueLeftTension tetherForceValues = 0 ∧
    calcAppliedTorque cfg k tetherForceValues =
      calcAppliedTorqueNoDiff cfg k tetherForceValues := by
  constructor
  · simp only [torqueLeftTension, torqueRightTension, sub_self]
  · simp only [calcAppliedTorque, calcAppliedTorqueNoDiff, torqueLeftTension,
      torqueRightTension, Vec3.add, Vec3.smul, Vec3.sub, Vec3.mk.injEq]
    refine ⟨trivial, by ring, trivial⟩

/-- Helper: the maximum-force clamp bounds the magnitude by 20. -/
theorem clampToMaxForce_mag_le (f : Vec3) : Vec3.mag (clampToMaxForce f) ≤ 20 := by
  simp only [clampToMaxForce]
  set S := f.x * f.x + f.y * f.y + f.z * f.z with hS
  split
  · next h =>
    have hpos : (0:ℝ) < S := by nlinarith [h]
    have hm : 0 < Real.sqrt S := Real.sqrt_pos.mpr hpos
    simp only [Vec3.mag]
    have key : f.x * (20.0 / Real.sqrt S) * (f.x * (20.0 / Real.sqrt S)) +
        f.y * (20.0 / Real.sqrt S) * (f.y * (20.0 / Real.sqrt S)) +
        f.z * (20.0 / Real.sqrt S) * (f.z * (20.0 / Real.sqrt S)) =
        (20.0 / Real.sqrt S) ^ 2 * S := by rw [hS]; ring
    rw [key, Real.sqrt_mul (sq_nonneg _), Real.sqrt_sq (by positivity),
      div_mul_cancel₀ _ (ne_of_gt hm)]
    norm_num
  · next h =>
    have h4 : S ≤ 400 := by nlinarith [not_lt.mp h]
    simp only [Vec3.mag]
    calc Real.sqrt S ≤ Real.sqrt 400 := Real.sqrt_le_sqrt h4
      _ = 20 := by rw [show (400:ℝ) = 20^2 by norm_num,
            Real.sqrt_sq (by norm_num : (0:ℝ) ≤ 20)]

/-- Claim C7 as amended: the magnitude clamp of getTetherForces is applied
to the summed line forces before the velocity damping term is subtracted,
so for every configuration and kite state the returned force plus 0.8 times
the kite velocity, which is exactly the clamped pre-damping net force, has
magnitude at most the maximum force 20; the returned net force itself, with
the damping already subtracted, is not bounded by 20. -/
theorem getTetherForces_clamped_before_damping (cfg : TetherConfig) (k : KiteState) :
    Vec3.mag ⟨(getTetherForces cfg k).x + k.velocity.x * 0.8,
      (getTetherForces cfg k).y + k.velocity.y * 0.8,
      (getTetherForces cfg k).z + k.velocity.z * 0.8⟩ ≤ 20 := by
  have e : ∀ a b : ℝ, a - b + b = a := fun a b => by ring
  simp only [getTetherForces, e]
  exact clampToMaxForce_mag_le _

/-- Helper for the tether force counterexample: at the origin both lines
are slack (distance about 10 m against an effective length of 25.5 m), so
both tensions vanish. -/
theorem tetherForces_slack_at_origin :
    calculateTetherForces defaultTetherConfig fastKite = (0, 0) := by
  simp only [calculateTetherForces, calculateLineTension, calculateDistance,
    bridleConnectionOf, leftAttachPoint, rightAttachPoint, operatorLeftHand,
    operatorRightHand, defaultTetherConfig, fastKite, defaultKite]
  norm_num
  left
  rw [div_le_one (by norm_num)]
  have h1 : Real.sqrt 101 ≤ Real.sqrt ((51 / 2) ^ 2) := Real.sqrt_le_sqrt (by norm_num)
  rwa [Real.sqrt_sq (by norm_num : (0:ℝ) ≤ 51 / 2)] at h1

/-- Helper: the tension-to-force scaling maps zero tension to zero force. -/
theorem scaleTension_zero : scaleTension 0 = 0 := by
  simp only [scaleTension]
  rw [Real.zero_rpow (by norm_num : (0.8:ℝ) ≠ 0)]
  ring

/-- Claim C7 counterexample: with both lines slack the summed line force is
zero and passes the clamp untouched, and the damping subtraction performed
after the clamp leaves a returned net force of magnitude 80, four times the
maximum force 20. -/
theorem getTetherForces_exceeds_clamp :
    getTetherForces defaultTetherConfig fastKite = ⟨-80, 0, 0⟩ ∧
    20 < Vec3.mag (getTetherForces defaultTetherConfig fastKite) := by
  have hmain : getTetherForces defaultTetherConfig fastKite = ⟨-80, 0, 0⟩ := by
    simp only [getTetherForces, tetherForces_slack_at_origin, scaleTension_zero,
      Vec3.smul, Vec3.add, clampToMaxForce]
    norm_num [Vec3.mk.injEq, fastKite, defaultKite]
  refine ⟨hmain, ?_⟩
  rw [hmain]
  have h80 : Vec3.mag ⟨-80, 0, 0⟩ = 80 := by
    simp only [Vec3.mag]
    rw [show ((-80:ℝ) * (-80) + 0 * 0 + 0 * 0) = 80^2 by norm_num,
      Real.sqrt_sq (by norm_num : (0:ℝ) ≤ 80)]
  rw [h80]
  norm_num

/-- Witness for updateWindVariation_floor at the default wind state with
the user scale set to zero and a vanished gust and turbulence phase. -/
theorem updateWindVariation_floor_witness :
    (0:ℝ) ≤ ({ defaultWind with userWindScale := 0 } : WindState).gustStrength ∧
    (updateWindVariation { defaultWind with userWindScale := 0 }
        0 (1/2) (1/2) (1/2) (1/2)).currentSpeed = 0.1 :=
  ⟨by norm_num [defaultWind],
    (updateWindVariation_floor { defaultWind with userWindScale := 0 }
        0 (1/2) (1/2) (1/2) (1/2)
        (by norm_num [defaultWind]) (by norm_num [defaultWind])
        (by norm_num [defaultWind]) (by norm_num [defaultWind])
        (by norm_num) (by norm_num)
        (by norm_num [defaultWind]) (by norm_num)).2.2 rfl⟩

end KiteSim
